import Mathlib

/-
Shallow embedding of the passport renewal calculator (src/app.py).

The program is three pure functions over calendar dates plus a validator:
  safe_add_years (app.py lines 22-28), classify_passport_stage (31-44),
  compute_next_change (47-81) and validate_inputs (84-111).

Dates are Python datetime.date values: triples (year, month, day) that are
always valid calendar dates with year in [1, 9999] (MINYEAR..MAXYEAR);
constructing an invalid one raises ValueError.  We model a date as a plain
triple together with a decidable validity predicate; every constructor in
the embedded code goes through a validity check, exactly as CPython does.
Python exceptions are modelled with Except: a ValueError or OverflowError
that the program does not catch appears as an .error result.

Calendar arithmetic (toordinal, fromordinal, date + timedelta, date
comparison) follows the CPython implementation: the proleptic Gregorian
ordinal with day 1 = 0001-01-01, and comparison is lexicographic on
(year, month, day).  The label strings returned by the program are modelled
by inductive types, one constructor per distinct string literal.
-/

/-- Leap year test, as CPython _is_leap: year % 4 == 0 and
(year % 100 != 0 or year % 400 == 0). -/
def isLeap (y : Nat) : Bool :=
  decide (y % 4 = 0 ∧ (y % 100 ≠ 0 ∨ y % 400 = 0))

/-- Days in a month, as CPython _DAYS_IN_MONTH (with the leap adjustment
for February); 0 for arguments outside 1..12. -/
def dim (L : Bool) (m : Nat) : Nat :=
  if m = 2 then (if L then 29 else 28)
  else if m = 1 ∨ m = 3 ∨ m = 5 ∨ m = 7 ∨ m = 8 ∨ m = 10 ∨ m = 12 then 31
  else if m = 4 ∨ m = 6 ∨ m = 9 ∨ m = 11 then 30
  else 0

/-- Days before a month within a year, as CPython _days_before_month:
dbm L m = sum of dim over months below m. -/
def dbm (L : Bool) : Nat → Nat
  | 0 => 0
  | m + 1 => dbm L m + dim L m

/-- Days before January 1 of a year, as CPython _days_before_year:
(y-1)*365 + (y-1)//4 - (y-1)//100 + (y-1)//400. -/
def dBY (y : Nat) : Nat :=
  365 * (y - 1) + ((y - 1) / 4 + (y - 1) / 400 - (y - 1) / 100)

/-- A Python datetime.date value: (year, month, day). -/
structure Date where
  year : Nat
  month : Nat
  day : Nat
deriving DecidableEq, Repr

/-- The invariant every constructed datetime.date satisfies:
MINYEAR <= year <= MAXYEAR, 1 <= month <= 12, 1 <= day <= days in month. -/
def Date.Valid (d : Date) : Prop :=
  1 ≤ d.year ∧ d.year ≤ 9999 ∧ 1 ≤ d.month ∧ d.month ≤ 12 ∧
    1 ≤ d.day ∧ d.day ≤ dim (isLeap d.year) d.month

instance (d : Date) : Decidable d.Valid := by
  unfold Date.Valid; infer_instance

/-- Python date comparison: lexicographic on (year, month, day). -/
def Date.lt (a b : Date) : Prop :=
  a.year < b.year ∨ (a.year = b.year ∧
    (a.month < b.month ∨ (a.month = b.month ∧ a.day < b.day)))

/-- Python date comparison, non-strict. -/
def Date.le (a b : Date) : Prop :=
  Date.lt a b ∨ a = b

instance : LT Date := ⟨Date.lt⟩

instance : LE Date := ⟨Date.le⟩

instance decDateLt (a b : Date) : Decidable (Date.lt a b) := by
  unfold Date.lt; infer_instance

instance decDateLe (a b : Date) : Decidable (Date.le a b) := by
  unfold Date.le; infer_instance

instance (a b : Date) : Decidable (a < b) := decDateLt a b

instance (a b : Date) : Decidable (a ≤ b) := decDateLe a b

/-- Proleptic Gregorian ordinal, as CPython _ymd2ord (date.toordinal):
days before year + days before month + day; 0001-01-01 is day 1. -/
def Date.toOrdinal (d : Date) : Nat :=
  dBY d.year + dbm (isLeap d.year) d.month + d.day

/-- date.max.toordinal(): the ordinal of 9999-12-31. -/
def MAXORD : Nat := 3652059

/-- Bounded linear search: starting from `start`, advance while
f (r+1) < k, for at most `fuel` steps.  Used to invert dBY and dbm. -/
def scanBound (f : Nat → Nat) (k : Nat) : Nat → Nat → Nat
  | start, 0 => start
  | start, fuel + 1 =>
    if f (start + 1) < k then scanBound f k (start + 1) fuel else start

/-- date.fromordinal: the unique valid date whose toOrdinal is n (for n in
[1, MAXORD]).  CPython computes it by a 400/100/4/1-year decomposition; we
compute the same date by locating the year (a short scan from a lower
bound) and then the month, which keeps the definition directly provable. -/
def Date.fromOrdinal (n : Nat) : Date :=
  let y := scanBound dBY n ((n - 1) / 366 + 1) 64
  let L := isLeap y
  let doy := n - dBY y
  let m := scanBound (dbm L) doy 1 11
  ⟨y, m, doy - dbm L m⟩

/-- timedelta subtraction of dates: (a - b).days. -/
def dateDiffDays (a b : Date) : Int :=
  (a.toOrdinal : Int) - (b.toOrdinal : Int)

/-- Python exceptions that the embedded code can raise. -/
inductive PyError
  | valueError
  | overflowError
deriving DecidableEq, Repr

/-- date.replace(year=y, month=m, day=dd): builds the new date, raising
ValueError when the result is not a valid date (year out of [1, 9999],
or day out of range for the month). -/
def date_replace (y : Int) (m dd : Nat) : Except PyError Date :=
  if (⟨y.toNat, m, dd⟩ : Date).Valid ∧ 1 ≤ y then .ok ⟨y.toNat, m, dd⟩
  else .error .valueError

/-- date + timedelta(days=n), as CPython date.__add__: ordinal addition,
raising OverflowError when the result leaves [1, MAXORD]. -/
def date_add_days (d : Date) (n : Int) : Except PyError Date :=
  if 1 ≤ (d.toOrdinal : Int) + n ∧ (d.toOrdinal : Int) + n ≤ (MAXORD : Int)
  then .ok (Date.fromOrdinal ((d.toOrdinal : Int) + n).toNat)
  else .error .overflowError

/-- safe_add_years (app.py 22-28):
try: return d.replace(year=d.year + years)
except ValueError: return d.replace(month=2, day=28, year=d.year + years).
Note the except branch itself raises when year + years is outside
[1, 9999]; that exception propagates to the caller. -/
def safe_add_years (d : Date) (years : Int) : Except PyError Date :=
  match date_replace ((d.year : Int) + years) d.month d.day with
  | .ok r => .ok r
  | .error _ => date_replace ((d.year : Int) + years) 2 28

/-- relativedelta internals (dateutil): date2 + relativedelta(months=m).
Total months are added and the day is clamped to the target month length.
The intermediate year is unbounded here; for the date pairs produced by
relativedelta(date1, date2) on valid dates it stays within range, so no
exception is modelled. -/
def rdAddMonths (d2 : Date) (months : Int) : Date :=
  let tot : Int := 12 * (d2.year : Int) + ((d2.month : Int) - 1) + months
  let tn := tot.toNat
  let yy := tn / 12
  let mm := tn % 12 + 1
  ⟨yy, mm, min d2.day (dim (isLeap yy) mm)⟩

/-- relativedelta(dt1, dt2) correction loop: starting from the raw month
difference, step months by +-1 while dt2 shifted by that many months
overshoots dt1.  On real inputs the loop runs at most once; fuel 24 is a
safe bound. -/
def rdLoop (dt1 dt2 : Date) (down : Bool) : Int → Nat → Int
  | months, 0 => months
  | months, fuel + 1 =>
    let dtm := rdAddMonths dt2 months
    if down then
      if Date.lt dt1 dtm then rdLoop dt1 dt2 down (months - 1) fuel else months
    else
      if Date.lt dtm dt1 then rdLoop dt1 dt2 down (months + 1) fuel else months

/-- relativedelta(dt1, dt2).years (dateutil): normalized month difference,
divided by 12 truncating toward zero (dateutil _set_months uses
sign-magnitude divmod, i.e. truncated division). -/
def rdYears (dt1 dt2 : Date) : Int :=
  let m0 : Int := ((dt1.year : Int) - (dt2.year : Int)) * 12 +
    ((dt1.month : Int) - (dt2.month : Int))
  let m :=
    if Date.lt dt1 dt2 then rdLoop dt1 dt2 false m0 24
    else rdLoop dt1 dt2 true m0 24
  Int.tdiv m 12

/-- The four strings classify_passport_stage can return (app.py 39, 41,
43, 44), one constructor per string literal:
s14 = first issue at 14, s20 = exchange at 20, s45 = exchange at 45,
ambiguous = unusual issue date. -/
inductive Stage
  | s14
  | s20
  | s45
  | ambiguous
deriving DecidableEq, Repr

/-- The three stage strings compute_next_change can return (app.py 53,
56, 60). -/
inductive StageLabel
  | firstChange20
  | secondChange45
  | after45
deriving DecidableEq, Repr

/-- The status message kinds of compute_next_change (app.py 63, 68, 71,
74): noMore = passport is unlimited after 45, invalid = more than 90 days
overdue, due = within the 90-day window, ok = valid. -/
inductive StatusKind
  | ok
  | due
  | invalid
  | noMore
deriving DecidableEq, Repr

/-- The dict compute_next_change returns.  The status strings carry the
computed day count as an f-string field; days_left records that number
(none when the string has no day count). -/
structure RenewalResult where
  stage : StageLabel
  next_change : Option Date
  deadline : Option Date
  status : StatusKind
  days_left : Option Int
deriving DecidableEq, Repr

/-- The seven validation message strings of validate_inputs (app.py
90, 92, 94, 98, 103, 107, 109), one constructor per string. -/
inductive VErr
  | birthInFuture
  | issueInFuture
  | issueBeforeBirth
  | ageBelow14
  | issueBeforeD14
  | birthOutOfRange
  | issueOutOfRange
deriving DecidableEq, Repr

/-- MIN_BIRTH (app.py 14). -/
def MIN_BIRTH : Date := ⟨1900, 1, 1⟩

/-- MIN_ISSUE (app.py 17). -/
def MIN_ISSUE : Date := ⟨1900, 1, 1⟩

/-- Tail of classify_passport_stage from the third test on (app.py 42-44):
if issue >= d45 return s45 else ambiguous. -/
def classify_from45 (d45 issue : Date) : Except PyError Stage :=
  if d45 ≤ issue then .ok .s45 else .ok .ambiguous

/-- Tail of classify_passport_stage from the second test on (app.py
40-44).  Python's chained comparison evaluates d20 <= issue first and only
then computes d45 + timedelta(days=90). -/
def classify_from20 (d20 d45 issue : Date) : Except PyError Stage :=
  if d20 ≤ issue then
    match date_add_days d45 90 with
    | .error e => .error e
    | .ok u45 => if issue ≤ u45 then .ok .s20 else classify_from45 d45 issue
  else classify_from45 d45 issue

/-- classify_passport_stage (app.py 31-44).  The three window tests run in
source order: the 14-window first, then the 20-window, then issue >= d45. -/
def classify_passport_stage (birth issue : Date) : Except PyError Stage :=
  match safe_add_years birth 14 with
  | .error e => .error e
  | .ok d14 =>
  match safe_add_years birth 20 with
  | .error e => .error e
  | .ok d20 =>
  match safe_add_years birth 45 with
  | .error e => .error e
  | .ok d45 =>
    if d14 ≤ issue then
      match date_add_days d20 90 with
      | .error e => .error e
      | .ok u20 =>
        if issue ≤ u20 then .ok .s14 else classify_from20 d20 d45 issue
    else classify_from20 d20 d45 issue

/-- The stage rule in the order claim C1 states it (45 first, then the
20-window, then the 14-window); written from the claim text only, for
comparison with classify_passport_stage. -/
def classify_stage_spec_order (birth issue : Date) : Except PyError Stage :=
  match safe_add_years birth 14, safe_add_years birth 20,
      safe_add_years birth 45 with
  | .error e, _, _ => .error e
  | _, .error e, _ => .error e
  | _, _, .error e => .error e
  | .ok d14, .ok d20, .ok d45 =>
    if d45 ≤ issue then .ok .s45
    else
      match date_add_days d45 90 with
      | .error e => .error e
      | .ok u45 =>
        if d20 ≤ issue ∧ issue ≤ u45 then .ok .s20
        else
          match date_add_days d20 90 with
          | .error e => .error e
          | .ok u20 =>
            if d14 ≤ issue ∧ issue ≤ u20 then .ok .s14 else .ok .ambiguous

/-- Continuation of compute_next_change after a non-terminal stage was
chosen (app.py 66-81): deadline = next_change + 90 days, then the status
classification with its day counts. -/
def status_block (sl : StageLabel) (next_change today : Date) :
    Except PyError RenewalResult :=
  match date_add_days next_change 90 with
  | .error e => .error e
  | .ok deadline =>
    if deadline < today then
      .ok ⟨sl, some next_change, some deadline, .invalid, none⟩
    else if next_change ≤ today then
      .ok ⟨sl, some next_change, some deadline, .due,
        some (dateDiffDays deadline today)⟩
    else
      .ok ⟨sl, some next_change, some deadline, .ok,
        some (dateDiffDays next_change today)⟩

/-- compute_next_change (app.py 47-81).  Note it takes only birth and
today; the issue date is not an argument. -/
def compute_next_change (birth today : Date) : Except PyError RenewalResult :=
  match safe_add_years birth 20 with
  | .error e => .error e
  | .ok d20 =>
  match safe_add_years birth 45 with
  | .error e => .error e
  | .ok d45 =>
    if today < d20 then status_block .firstChange20 d20 today
    else if today < d45 then status_block .secondChange45 d45 today
    else .ok ⟨.after45, none, none, .noMore, none⟩

/-- The call the UI makes for the result record (app.py 161):
res = compute_next_change(birth, today).  The issue date is in scope at
the call site but is not passed. -/
def ui_compute_result (birth issue today : Date) :
    Except PyError RenewalResult :=
  compute_next_change birth today

/-- validate_inputs (app.py 84-111).  sysToday models the module-level
date.today() captured into MAX_BIRTH and MAX_ISSUE (app.py 15, 18).
All seven checks append to one list in source order; the only exception
point is safe_add_years(birth, 14) at line 101. -/
def validate_inputs (sysToday birth issue today : Date) :
    Except PyError (List VErr) :=
  let e1 := if birth > today then [VErr.birthInFuture] else []
  let e2 := if issue > today then [VErr.issueInFuture] else []
  let e3 := if issue < birth then [VErr.issueBeforeBirth] else []
  let e4 := if rdYears today birth < 14 then [VErr.ageBelow14] else []
  match safe_add_years birth 14 with
  | .error e => .error e
  | .ok d14 =>
    let e5 := if issue < d14 then [VErr.issueBeforeD14] else []
    let e6 := if ¬ (MIN_BIRTH ≤ birth ∧ birth ≤ sysToday) then
        [VErr.birthOutOfRange] else []
    let e7 := if ¬ (MIN_ISSUE ≤ issue ∧ issue ≤ sysToday) then
        [VErr.issueOutOfRange] else []
    .ok (e1 ++ e2 ++ e3 ++ e4 ++ e5 ++ e6 ++ e7)

/-- The seven validator messages in emission order. -/
def VErrOrder : List VErr :=
  [.birthInFuture, .issueInFuture, .issueBeforeBirth, .ageBelow14,
   .issueBeforeD14, .birthOutOfRange, .issueOutOfRange]

/-- The condition under which each validator message is emitted, given the
precomputed d14 = safe_add_years(birth, 14). -/
def vErrHolds (sysToday birth issue today d14 : Date) : VErr → Bool
  | .birthInFuture => decide (birth > today)
  | .issueInFuture => decide (issue > today)
  | .issueBeforeBirth => decide (issue < birth)
  | .ageBelow14 => decide (rdYears today birth < 14)
  | .issueBeforeD14 => decide (issue < d14)
  | .birthOutOfRange => ! decide (MIN_BIRTH ≤ birth ∧ birth ≤ sysToday)
  | .issueOutOfRange => ! decide (MIN_ISSUE ≤ issue ∧ issue ≤ sysToday)

/-- Equality of Except values is decidable componentwise (used to evaluate
the embedded functions on concrete inputs). -/
instance decEqExcept {e a : Type} [DecidableEq e] [DecidableEq a] :
    DecidableEq (Except e a) := fun x y =>
  match x, y with
  | .error e1, .error e2 => decidable_of_iff (e1 = e2) (by simp)
  | .error _, .ok _ => isFalse (by simp)
  | .ok _, .error _ => isFalse (by simp)
  | .ok v1, .ok v2 => decidable_of_iff (v1 = v2) (by simp)

/-- isLeap unfolded to its proposition. -/
theorem isLeap_iff (y : Nat) :
    isLeap y = true ↔ (y % 4 = 0 ∧ (y % 100 ≠ 0 ∨ y % 400 = 0)) := by
  simp [isLeap]

/-- dBY grows by exactly the length of the year. -/
theorem dBY_step (y : Nat) (h : 1 ≤ y) :
    dBY (y + 1) = dBY y + (if isLeap y then 366 else 365) := by
  by_cases hL : isLeap y
  · rw [if_pos hL]
    rw [isLeap_iff] at hL
    unfold dBY
    omega
  · rw [if_neg hL]
    rw [(isLeap_iff y).not] at hL
    unfold dBY
    omega

/-- dBY is monotone. -/
theorem dBY_mono {y1 y2 : Nat} (h : y1 ≤ y2) : dBY y1 ≤ dBY y2 := by
  unfold dBY; omega

/-- dBY grows by at least 365 per year. -/
theorem dBY_add_le {y1 y2 : Nat} (h1 : 1 ≤ y1) (h : y1 < y2) :
    dBY y1 + 365 ≤ dBY y2 := by
  unfold dBY; omega

/-- Lower and upper linear bounds for dBY. -/
theorem dBY_bounds (y : Nat) : 365 * (y - 1) ≤ dBY y ∧ dBY y ≤ 366 * (y - 1) := by
  unfold dBY; omega

/-- The largest ordinal: dBY 10000 = toOrdinal of 9999-12-31. -/
theorem dBY_top : dBY 10000 = 3652059 := by decide

/-- dbm over Fin 14 is monotone (finite check). -/
theorem dbm_mono_fin : ∀ (L : Bool) (a b : Fin 14), a ≤ b →
    dbm L a.val ≤ dbm L b.val := by decide

/-- dbm at 13 is the length of the year. -/
theorem dbm_thirteen : ∀ L : Bool, dbm L 13 = 365 + (if L then 1 else 0) := by
  decide

/-- dbm is monotone below 13. -/
theorem dbm_mono (L : Bool) {a b : Nat} (hab : a ≤ b) (hb : b ≤ 13) :
    dbm L a ≤ dbm L b := by
  have h := dbm_mono_fin L ⟨a, by omega⟩ ⟨b, by omega⟩ (by simpa using hab)
  simpa using h

/-- dim is independent of the leap flag away from February. -/
theorem dim_congr (L L' : Bool) (m : Nat) (h : m ≠ 2) : dim L m = dim L' m := by
  unfold dim; simp [h]

/-- What scanBound returns when the target is bracketed within fuel range:
the unique r with f r < k <= f (r+1). -/
theorem scanBound_spec (f : Nat → Nat) (k : Nat) :
    ∀ fuel start, f start < k → k ≤ f (start + fuel + 1) →
      f (scanBound f k start fuel) < k ∧
        k ≤ f (scanBound f k start fuel + 1) ∧
        start ≤ scanBound f k start fuel ∧
        scanBound f k start fuel ≤ start + fuel := by
  intro fuel
  induction fuel with
  | zero =>
    intro start h0 h1
    refine ⟨h0, ?_, Nat.le_refl _, Nat.le_refl _⟩
    simpa using h1
  | succ fuel ih =>
    intro start h0 h1
    unfold scanBound
    by_cases hc : f (start + 1) < k
    · rw [if_pos hc]
      have h1' : k ≤ f (start + 1 + fuel + 1) := by
        rw [show start + 1 + fuel + 1 = start + (fuel + 1) + 1 by omega]
        exact h1
      have := ih (start + 1) hc h1'
      exact ⟨this.1, this.2.1, by omega, by omega⟩
    · rw [if_neg hc]
      exact ⟨h0, by omega, Nat.le_refl _, by omega⟩

/-- fromOrdinal is a valid date and a right inverse of toOrdinal on
[1, MAXORD]. -/
theorem fromOrdinal_spec (n : Nat) (h1 : 1 ≤ n) (h2 : n ≤ MAXORD) :
    (Date.fromOrdinal n).Valid ∧ (Date.fromOrdinal n).toOrdinal = n := by
  unfold MAXORD at h2
  have h0 : dBY ((n - 1) / 366 + 1) < n := by unfold dBY; omega
  have hup : n ≤ dBY ((n - 1) / 366 + 1 + 64 + 1) := by unfold dBY; omega
  obtain ⟨hy1, hy2, hy3, hy4⟩ := scanBound_spec dBY n 64 ((n - 1) / 366 + 1) h0 hup
  set y := scanBound dBY n ((n - 1) / 366 + 1) 64 with hy
  have hyge : 1 ≤ y := by omega
  have hy9999 : y ≤ 9999 := by
    by_contra hcon
    have h10 : dBY 10000 ≤ dBY y := dBY_mono (by omega)
    rw [dBY_top] at h10
    omega
  have hstep := dBY_step y hyge
  have hdoy2 : n - dBY y ≤ dbm (isLeap y) 13 := by
    rw [dbm_thirteen]
    by_cases hL : isLeap y <;> simp [hL] at hstep ⊢ <;> omega
  have hm0 : dbm (isLeap y) 1 < n - dBY y := by
    have : dbm (isLeap y) 1 = 0 := rfl
    omega
  have hmup : n - dBY y ≤ dbm (isLeap y) (1 + 11 + 1) := hdoy2
  obtain ⟨hm1, hm2, hm3, hm4⟩ :=
    scanBound_spec (dbm (isLeap y)) (n - dBY y) 11 1 hm0 hmup
  set m := scanBound (dbm (isLeap y)) (n - dBY y) 1 11 with hm
  have hsucc : dbm (isLeap y) (m + 1) = dbm (isLeap y) m + dim (isLeap y) m :=
    rfl
  have hEq : Date.fromOrdinal n = ⟨y, m, n - dBY y - dbm (isLeap y) m⟩ := rfl
  rw [hEq]
  constructor
  · refine ⟨hyge, hy9999, hm3, ?_, ?_, ?_⟩
    · show m ≤ 12
      omega
    · show 1 ≤ n - dBY y - dbm (isLeap y) m
      omega
    · show n - dBY y - dbm (isLeap y) m ≤ dim (isLeap y) m
      omega
  · show dBY y + dbm (isLeap y) m + (n - dBY y - dbm (isLeap y) m) = n
    omega

/-- A year of days separates consecutive dBY values, stated through
dbm at 13 so both sides share the same leap atom. -/
theorem dBY_step_dbm (y : Nat) (h : 1 ≤ y) :
    dBY (y + 1) = dBY y + dbm (isLeap y) 13 := by
  rw [dBY_step y h, dbm_thirteen]
  by_cases hL : isLeap y <;> simp [hL]

/-- Date order is total. -/
theorem date_lt_trichotomy (a b : Date) : Date.lt a b ∨ a = b ∨ Date.lt b a := by
  rcases a with ⟨y1, m1, d1⟩
  rcases b with ⟨y2, m2, d2⟩
  simp only [Date.lt, Date.mk.injEq]
  omega

/-- On valid dates the lexicographic order implies the ordinal order. -/
theorem toOrdinal_lt_of_lt {a b : Date} (ha : a.Valid) (hb : b.Valid)
    (h : Date.lt a b) : a.toOrdinal < b.toOrdinal := by
  obtain ⟨ha1, ha2, ha3, ha4, ha5, ha6⟩ := ha
  obtain ⟨hb1, hb2, hb3, hb4, hb5, hb6⟩ := hb
  unfold Date.toOrdinal
  rcases h with hy | ⟨hyeq, hm | ⟨hmeq, hd⟩⟩
  · have e2 : dbm (isLeap a.year) (a.month + 1)
        = dbm (isLeap a.year) a.month + dim (isLeap a.year) a.month := rfl
    have e3 : dbm (isLeap a.year) (a.month + 1) ≤ dbm (isLeap a.year) 13 :=
      dbm_mono _ (by omega) (by omega)
    have e5 := dBY_step_dbm a.year ha1
    have e6 : dBY (a.year + 1) ≤ dBY b.year := dBY_mono (by omega)
    omega
  · rw [hyeq]
    have e2 : dbm (isLeap b.year) (a.month + 1)
        = dbm (isLeap b.year) a.month + dim (isLeap b.year) a.month := rfl
    have e3 : dbm (isLeap b.year) (a.month + 1) ≤ dbm (isLeap b.year) b.month :=
      dbm_mono _ (by omega) (by omega)
    rw [hyeq] at ha6
    omega
  · rw [hyeq, hmeq]
    omega

/-- On valid dates the non-strict orders also transfer. -/
theorem toOrdinal_le_of_le {a b : Date} (ha : a.Valid) (hb : b.Valid)
    (h : Date.le a b) : a.toOrdinal ≤ b.toOrdinal := by
  rcases h with h | h
  · exact Nat.le_of_lt (toOrdinal_lt_of_lt ha hb h)
  · rw [h]

/-- On valid dates the ordinal order implies the lexicographic order. -/
theorem lt_of_toOrdinal_lt {a b : Date} (ha : a.Valid) (hb : b.Valid)
    (h : a.toOrdinal < b.toOrdinal) : Date.lt a b := by
  rcases date_lt_trichotomy a b with hc | hc | hc
  · exact hc
  · rw [hc] at h
    omega
  · have := toOrdinal_lt_of_lt hb ha hc
    omega

/-- On valid dates the non-strict ordinal order implies the
lexicographic one. -/
theorem le_of_toOrdinal_le {a b : Date} (ha : a.Valid) (hb : b.Valid)
    (h : a.toOrdinal ≤ b.toOrdinal) : Date.le a b := by
  rcases date_lt_trichotomy a b with hc | hc | hc
  · exact Or.inl hc
  · exact Or.inr hc
  · have := toOrdinal_lt_of_lt hb ha hc
    omega

/-- Failing a strict comparison yields the reverse non-strict one. -/
theorem date_le_of_not_lt {a b : Date} (h : ¬ Date.lt a b) : Date.le b a := by
  rcases date_lt_trichotomy a b with hc | hc | hc
  · exact absurd hc h
  · exact Or.inr hc.symm
  · exact Or.inl hc

/-- Failing a non-strict comparison yields the reverse strict one. -/
theorem date_lt_of_not_le {a b : Date} (h : ¬ Date.le a b) : Date.lt b a := by
  rcases date_lt_trichotomy a b with hc | hc | hc
  · exact absurd (Or.inl hc) h
  · exact absurd (Or.inr hc) h
  · exact hc

/-- What a successful date.replace returns. -/
theorem date_replace_ok {y : Int} {m dd : Nat} {r : Date}
    (h : date_replace y m dd = .ok r) :
    r = ⟨y.toNat, m, dd⟩ ∧ r.Valid ∧ 1 ≤ y := by
  unfold date_replace at h
  split at h
  · rename_i hc
    injection h with h
    exact ⟨h.symm, h ▸ hc.1, hc.2⟩
  · cases h

/-- A successful safe_add_years returns a valid date whose year moved by
exactly the requested amount and whose month is the original month or
(in the clamped case) February. -/
theorem safe_add_years_ok {d : Date} {n : Int} {r : Date}
    (h : safe_add_years d n = .ok r) :
    r.Valid ∧ (r.year : Int) = (d.year : Int) + n := by
  unfold safe_add_years at h
  rcases hrep : date_replace ((d.year : Int) + n) d.month d.day with e | v
  · rw [hrep] at h
    obtain ⟨he, hv, hy⟩ := date_replace_ok h
    refine ⟨hv, ?_⟩
    have : r.year = ((d.year : Int) + n).toNat := by rw [he]
    omega
  · rw [hrep] at h
    injection h with h
    subst h
    obtain ⟨he, hv, hy⟩ := date_replace_ok hrep
    refine ⟨hv, ?_⟩
    have : v.year = ((d.year : Int) + n).toNat := by rw [he]
    omega

/-- A successful date + timedelta(days=n) is valid and shifts the ordinal
by exactly n. -/
theorem date_add_days_ok {d : Date} {n : Int} {r : Date}
    (h : date_add_days d n = .ok r) :
    r.Valid ∧ (r.toOrdinal : Int) = (d.toOrdinal : Int) + n := by
  unfold date_add_days at h
  split at h
  · rename_i hc
    unfold MAXORD at hc
    injection h with h
    subst h
    have hspec := fromOrdinal_spec ((d.toOrdinal : Int) + n).toNat
      (by omega) (by unfold MAXORD; omega)
    refine ⟨hspec.1, ?_⟩
    rw [hspec.2]
    omega
  · cases h

/-- Validity of a literal triple, componentwise. -/
theorem valid_mk_iff (t m dd : Nat) :
    (⟨t, m, dd⟩ : Date).Valid ↔
      (1 ≤ t ∧ t ≤ 9999 ∧ 1 ≤ m ∧ m ≤ 12 ∧ 1 ≤ dd ∧ dd ≤ dim (isLeap t) m) :=
  Iff.rfl

/-- February lengths. -/
theorem dim_two (L : Bool) : dim L 2 = if L then 29 else 28 := rfl

/-- Full description of safe_add_years when the target year is inside
[1, 9999]: the year moves by n; month and day are unchanged except that
Feb 29 is clamped to Feb 28 when the target year is not leap. -/
theorem safe_add_years_inrange (d : Date) (n : Int) (hd : d.Valid)
    (h1 : 1 ≤ (d.year : Int) + n) (h2 : (d.year : Int) + n ≤ 9999) :
    safe_add_years d n =
      .ok (if d.month = 2 ∧ d.day = 29 ∧
            isLeap ((d.year : Int) + n).toNat = false
        then ⟨((d.year : Int) + n).toNat, 2, 28⟩
        else ⟨((d.year : Int) + n).toNat, d.month, d.day⟩) := by
  obtain ⟨hd1, hd2, hd3, hd4, hd5, hd6⟩ := hd
  have ht1 : 1 ≤ ((d.year : Int) + n).toNat := by omega
  have ht2 : ((d.year : Int) + n).toNat ≤ 9999 := by omega
  unfold safe_add_years date_replace
  by_cases hm2 : d.month = 2
  · by_cases h29 : d.day = 29
    · by_cases hL : isLeap ((d.year : Int) + n).toNat = true
      · have hv : (⟨((d.year : Int) + n).toNat, d.month, d.day⟩ : Date).Valid
            ∧ 1 ≤ (d.year : Int) + n := by
          refine ⟨(valid_mk_iff _ _ _).mpr ⟨ht1, ht2, hd3, hd4, hd5, ?_⟩, h1⟩
          rw [hm2, h29, hL, dim_two]
          simp
        rw [if_pos hv]
        simp [hm2, h29, hL]
      · have hnv : ¬ ((⟨((d.year : Int) + n).toNat, d.month, d.day⟩ : Date).Valid
            ∧ 1 ≤ (d.year : Int) + n) := by
          rintro ⟨hv, -⟩
          rw [valid_mk_iff] at hv
          have h6 := hv.2.2.2.2.2
          rw [hm2, h29, dim_two] at h6
          rw [Bool.not_eq_true] at hL
          rw [hL] at h6
          simp at h6
        rw [if_neg hnv]
        have hv2 : (⟨((d.year : Int) + n).toNat, 2, 28⟩ : Date).Valid
            ∧ 1 ≤ (d.year : Int) + n := by
          refine ⟨(valid_mk_iff _ _ _).mpr
            ⟨ht1, ht2, by omega, by omega, by omega, ?_⟩, h1⟩
          rw [dim_two]
          by_cases hLL : isLeap ((d.year : Int) + n).toNat <;> simp [hLL]
        rw [if_pos hv2]
        rw [Bool.not_eq_true] at hL
        simp [hm2, h29, hL]
    · have hv : (⟨((d.year : Int) + n).toNat, d.month, d.day⟩ : Date).Valid
          ∧ 1 ≤ (d.year : Int) + n := by
        refine ⟨(valid_mk_iff _ _ _).mpr ⟨ht1, ht2, hd3, hd4, hd5, ?_⟩, h1⟩
        rw [hm2, dim_two]
        rw [hm2, dim_two] at hd6
        by_cases hLL : isLeap ((d.year : Int) + n).toNat <;>
          by_cases hLo : isLeap d.year <;>
            simp [hLL, hLo] at hd6 ⊢ <;> omega
      rw [if_pos hv]
      simp [h29]
  · have hdimeq : dim (isLeap ((d.year : Int) + n).toNat) d.month
        = dim (isLeap d.year) d.month := dim_congr _ _ _ hm2
    have hv : (⟨((d.year : Int) + n).toNat, d.month, d.day⟩ : Date).Valid
        ∧ 1 ≤ (d.year : Int) + n := by
      refine ⟨(valid_mk_iff _ _ _).mpr ⟨ht1, ht2, hd3, hd4, hd5, ?_⟩, h1⟩
      omega
    rw [if_pos hv]
    simp [hm2]

/-- Fields of a successful status_block result: the stage label and
next_change are the arguments, the deadline is next_change + 90 days, and
status and days_left follow the three-way comparison of app.py 67-74. -/
theorem status_block_fields {sl : StageLabel} {nc today : Date}
    {r : RenewalResult} (h : status_block sl nc today = .ok r) :
    r.stage = sl ∧ r.next_change = some nc ∧
    ∃ dl, date_add_days nc 90 = .ok dl ∧ r.deadline = some dl ∧
      ((dl < today → r.status = .invalid ∧ r.days_left = none) ∧
       (¬ dl < today → nc ≤ today →
          r.status = .due ∧ r.days_left = some (dateDiffDays dl today)) ∧
       (¬ dl < today → ¬ nc ≤ today →
          r.status = StatusKind.ok ∧
            r.days_left = some (dateDiffDays nc today))) := by
  unfold status_block at h
  rcases hu : date_add_days nc 90 with e | dl
  · simp only [hu] at h
    exact Except.noConfusion h
  · simp only [hu] at h
    split_ifs at h with h1 h2
    · injection h with h
      subst h
      exact ⟨rfl, rfl, dl, rfl, rfl,
        fun _ => ⟨rfl, rfl⟩,
        fun hnd _ => absurd h1 hnd,
        fun hnd _ => absurd h1 hnd⟩
    · injection h with h
      subst h
      exact ⟨rfl, rfl, dl, rfl, rfl,
        fun hd => absurd hd h1,
        fun _ _ => ⟨rfl, rfl⟩,
        fun _ hnle => absurd h2 hnle⟩
    · injection h with h
      subst h
      exact ⟨rfl, rfl, dl, rfl, rfl,
        fun hd => absurd hd h1,
        fun _ hle => absurd hle h2,
        fun _ _ => ⟨rfl, rfl⟩⟩

/-- A guarded singleton followed by a list, fused. -/
theorem ite_singleton_append {α : Type} (c : Prop) [Decidable c] (a : α)
    (L : List α) :
    (if c then [a] else []) ++ L = if c then a :: L else L := by
  split_ifs <;> simp

/-- Append distributes over a guarded cons. -/
theorem ite_cons_append {α : Type} (c : Prop) [Decidable c] (a : α)
    (L M : List α) :
    (if c then a :: L else L) ++ M = if c then a :: (L ++ M) else L ++ M := by
  split_ifs <;> simp

/-- C1, counterexample.  The claim says the classifier applies the rules
with the 45-threshold first, resolving overlaps towards the later stage.
For birth 1990-01-01 and issue 2010-02-01 the issue date lies both in the
14-window [d14, d20+90] and in the 20-window [d20, d45+90]; the code
(which tests the 14-window first) returns stage 14, while the rule order
the claim states returns stage 20. -/
theorem c1_order_counterexample :
    classify_passport_stage ⟨1990, 1, 1⟩ ⟨2010, 2, 1⟩ = .ok Stage.s14 ∧
    classify_stage_spec_order ⟨1990, 1, 1⟩ ⟨2010, 2, 1⟩ = .ok Stage.s20 ∧
    Stage.s14 ≠ Stage.s20 := by
  decide

/-- C1, amended.  classify_passport_stage applies its rules in source
order: first the 14-window d14 <= issue <= d20+90, then the 20-window
d20 <= issue <= d45+90, then issue >= d45, else ambiguous; an issue date
lying in several windows therefore resolves to the EARLIEST stage. -/
theorem c1_classifier_order :
    ∀ (birth issue d14 d20 d45 u20 u45 : Date),
      safe_add_years birth 14 = .ok d14 →
      safe_add_years birth 20 = .ok d20 →
      safe_add_years birth 45 = .ok d45 →
      date_add_days d20 90 = .ok u20 →
      date_add_days d45 90 = .ok u45 →
      classify_passport_stage birth issue =
        .ok (if d14 ≤ issue ∧ issue ≤ u20 then Stage.s14
          else if d20 ≤ issue ∧ issue ≤ u45 then Stage.s20
          else if d45 ≤ issue then Stage.s45
          else Stage.ambiguous) := by
  intro birth issue d14 d20 d45 u20 u45 h14 h20 h45 hu20 hu45
  unfold classify_passport_stage classify_from20 classify_from45
  simp only [h14, h20, h45]
  simp only [hu20, hu45]
  split_ifs <;> first | rfl | tauto

/-- Witness for c1_classifier_order at birth 1990-01-01,
issue 2010-02-01. -/
theorem c1_classifier_order_witness :
    safe_add_years ⟨1990, 1, 1⟩ 14 = .ok ⟨2004, 1, 1⟩ ∧
    classify_passport_stage ⟨1990, 1, 1⟩ ⟨2010, 2, 1⟩ =
      .ok (if (⟨2004, 1, 1⟩ : Date) ≤ ⟨2010, 2, 1⟩ ∧
            (⟨2010, 2, 1⟩ : Date) ≤ ⟨2010, 4, 1⟩ then Stage.s14
        else if (⟨2010, 1, 1⟩ : Date) ≤ ⟨2010, 2, 1⟩ ∧
            (⟨2010, 2, 1⟩ : Date) ≤ ⟨2035, 4, 1⟩ then Stage.s20
        else if (⟨2035, 1, 1⟩ : Date) ≤ ⟨2010, 2, 1⟩ then Stage.s45
        else Stage.ambiguous) :=
  ⟨by decide, c1_classifier_order ⟨1990, 1, 1⟩ ⟨2010, 2, 1⟩ ⟨2004, 1, 1⟩
    ⟨2010, 1, 1⟩ ⟨2035, 1, 1⟩ ⟨2010, 4, 1⟩ ⟨2035, 4, 1⟩ (by decide) (by decide)
    (by decide) (by decide) (by decide)⟩

/-- C2, counterexample.  The claim says next_change is determined by the
classifier stage (stage 14 yields next_change = d20).  For birth
1990-01-01, issue 2005-06-15 the classifier returns stage 14, yet with
today 2015-01-01 the calculator (which never reads the issue date)
returns next_change = d45 = 2035-01-01 and not d20 = 2010-01-01. -/
theorem c2_stage_counterexample :
    safe_add_years ⟨1990, 1, 1⟩ 20 = .ok ⟨2010, 1, 1⟩ ∧
    classify_passport_stage ⟨1990, 1, 1⟩ ⟨2005, 6, 15⟩ = .ok Stage.s14 ∧
    Except.map (fun r => r.next_change)
      (compute_next_change ⟨1990, 1, 1⟩ ⟨2015, 1, 1⟩) =
      .ok (some ⟨2035, 1, 1⟩) ∧
    (⟨2035, 1, 1⟩ : Date) ≠ ⟨2010, 1, 1⟩ := by
  decide

/-- C2, amended.  compute_next_change depends only on birth and today:
today < d20 gives next_change = d20 (stage label "first change at 20");
d20 <= today < d45 gives next_change = d45; today >= d45 gives the
terminal no-more-changes record.  The classifier stage and the issue date
play no role.  In particular birth 1980-01-01, today 2025-06-01 is
terminal. -/
theorem c2_next_change_by_age :
    (∀ (birth today d20 d45 : Date) (r : RenewalResult),
      safe_add_years birth 20 = .ok d20 →
      safe_add_years birth 45 = .ok d45 →
      compute_next_change birth today = .ok r →
      ((today < d20 → r.stage = .firstChange20 ∧ r.next_change = some d20) ∧
       (¬ today < d20 → today < d45 →
          r.stage = .secondChange45 ∧ r.next_change = some d45) ∧
       (¬ today < d20 → ¬ today < d45 →
          r = ⟨.after45, none, none, .noMore, none⟩))) ∧
    compute_next_change ⟨1980, 1, 1⟩ ⟨2025, 6, 1⟩ =
      .ok ⟨.after45, none, none, .noMore, none⟩ := by
  constructor
  · intro birth today d20 d45 r h20 h45 hr
    unfold compute_next_change at hr
    simp only [h20, h45] at hr
    refine ⟨?_, ?_, ?_⟩
    · intro ht
      rw [if_pos ht] at hr
      obtain ⟨hs, hn, -⟩ := status_block_fields hr
      exact ⟨hs, hn⟩
    · intro hnt ht
      rw [if_neg hnt, if_pos ht] at hr
      obtain ⟨hs, hn, -⟩ := status_block_fields hr
      exact ⟨hs, hn⟩
    · intro hnt hnt2
      rw [if_neg hnt, if_neg hnt2] at hr
      injection hr with hr
      exact hr.symm
  · decide

/-- Witness for c2_next_change_by_age at birth 1990-01-01,
today 2000-06-15 (before d20). -/
theorem c2_next_change_by_age_witness :
    safe_add_years ⟨1990, 1, 1⟩ 20 = .ok ⟨2010, 1, 1⟩ ∧
    ((⟨2000, 6, 15⟩ : Date) < ⟨2010, 1, 1⟩) ∧
    (⟨.firstChange20, some ⟨2010, 1, 1⟩, some ⟨2010, 4, 1⟩, StatusKind.ok,
        some 3487⟩ : RenewalResult).stage = .firstChange20 ∧
    (⟨.firstChange20, some ⟨2010, 1, 1⟩, some ⟨2010, 4, 1⟩, StatusKind.ok,
        some 3487⟩ : RenewalResult).next_change = some ⟨2010, 1, 1⟩ := by
  have h := (c2_next_change_by_age.1 ⟨1990, 1, 1⟩ ⟨2000, 6, 15⟩ ⟨2010, 1, 1⟩
    ⟨2035, 1, 1⟩ ⟨.firstChange20, some ⟨2010, 1, 1⟩, some ⟨2010, 4, 1⟩,
      StatusKind.ok, some 3487⟩ (by decide) (by decide) (by decide)).1
    (by decide)
  exact ⟨by decide, by decide, h.1, h.2⟩

/-- C3, confirmed.  Whenever compute_next_change returns a record with a
next_change (the non-terminal case), its status and day count are exactly:
today > deadline gives invalid (no day count); otherwise today >=
next_change gives due with days_left = (deadline - today).days; otherwise
ok with days_left = (next_change - today).days. -/
theorem c3_status_classification :
    ∀ (birth today : Date) (r : RenewalResult) (nc dl : Date),
      compute_next_change birth today = .ok r →
      r.next_change = some nc → r.deadline = some dl →
      r.status = (if dl < today then StatusKind.invalid
        else if nc ≤ today then StatusKind.due else StatusKind.ok) ∧
      r.days_left = (if dl < today then none
        else if nc ≤ today then some (dateDiffDays dl today)
        else some (dateDiffDays nc today)) := by
  intro birth today r nc dl hr hnc hdl
  unfold compute_next_change at hr
  rcases h20 : safe_add_years birth 20 with e | d20
  · simp only [h20] at hr
    exact Except.noConfusion hr
  · simp only [h20] at hr
    rcases h45 : safe_add_years birth 45 with e | d45
    · simp only [h45] at hr
      exact Except.noConfusion hr
    · simp only [h45] at hr
      have hfin : ∀ sl nc0, status_block sl nc0 today = .ok r →
          r.status = (if dl < today then StatusKind.invalid
            else if nc ≤ today then StatusKind.due else StatusKind.ok) ∧
          r.days_left = (if dl < today then none
            else if nc ≤ today then some (dateDiffDays dl today)
            else some (dateDiffDays nc today)) := by
        intro sl nc0 hsb
        obtain ⟨-, hnc0, dl0, -, hdl0, hc1, hc2, hc3⟩ := status_block_fields hsb
        rw [hnc] at hnc0
        injection hnc0 with hnc0
        rw [hdl] at hdl0
        injection hdl0 with hdl0
        subst hnc0
        subst hdl0
        by_cases hA : dl < today
        · rw [if_pos hA, if_pos hA]
          exact ⟨(hc1 hA).1, (hc1 hA).2⟩
        · rw [if_neg hA, if_neg hA]
          by_cases hB : nc ≤ today
          · rw [if_pos hB, if_pos hB]
            exact ⟨(hc2 hA hB).1, (hc2 hA hB).2⟩
          · rw [if_neg hB, if_neg hB]
            exact ⟨(hc3 hA hB).1, (hc3 hA hB).2⟩
      split_ifs at hr with hA hB
      · exact hfin _ _ hr
      · exact hfin _ _ hr
      · injection hr with hr
        rw [← hr] at hnc
        cases hnc

/-- Witness for c3_status_classification at birth 1990-01-01,
today 2000-06-15. -/
theorem c3_status_classification_witness :
    compute_next_change ⟨1990, 1, 1⟩ ⟨2000, 6, 15⟩ =
      .ok ⟨.firstChange20, some ⟨2010, 1, 1⟩, some ⟨2010, 4, 1⟩,
        StatusKind.ok, some 3487⟩ ∧
    (⟨.firstChange20, some ⟨2010, 1, 1⟩, some ⟨2010, 4, 1⟩, StatusKind.ok,
        some 3487⟩ : RenewalResult).status =
      (if (⟨2010, 4, 1⟩ : Date) < ⟨2000, 6, 15⟩ then StatusKind.invalid
       else if (⟨2010, 1, 1⟩ : Date) ≤ ⟨2000, 6, 15⟩ then StatusKind.due
       else StatusKind.ok) :=
  ⟨by decide, (c3_status_classification ⟨1990, 1, 1⟩ ⟨2000, 6, 15⟩
    ⟨.firstChange20, some ⟨2010, 1, 1⟩, some ⟨2010, 4, 1⟩, StatusKind.ok,
      some 3487⟩ ⟨2010, 1, 1⟩ ⟨2010, 4, 1⟩ (by decide) rfl rfl).1⟩

/-- C4, counterexample.  The claim says that for birth 1990-01-01, issue
2010-01-01, today 2010-01-02 the classifier returns stage 20 and the
calculator returns next_change 2010-01-01.  In the code the classifier
returns stage 14 (the 14-window is tested first and contains d20), and
the calculator, seeing today >= d20, returns next_change d45. -/
theorem c4_example_counterexample :
    ¬ (classify_passport_stage ⟨1990, 1, 1⟩ ⟨2010, 1, 1⟩ = .ok Stage.s20 ∧
       Except.map (fun r => r.next_change)
         (compute_next_change ⟨1990, 1, 1⟩ ⟨2010, 1, 2⟩) =
         .ok (some ⟨2010, 1, 1⟩)) := by
  decide

/-- C4, amended.  For birth 1990-01-01, issue 2010-01-01, today
2010-01-02: the classifier returns stage 14, and the calculator returns
next_change = 2035-01-01 (= d45), deadline = 2035-04-01, status ok, with
9130 days left. -/
theorem c4_example_amended :
    classify_passport_stage ⟨1990, 1, 1⟩ ⟨2010, 1, 1⟩ = .ok Stage.s14 ∧
    compute_next_change ⟨1990, 1, 1⟩ ⟨2010, 1, 2⟩ =
      .ok ⟨.secondChange45, some ⟨2035, 1, 1⟩, some ⟨2035, 4, 1⟩,
        StatusKind.ok, some 9130⟩ := by
  decide

/-- C5, confirmed.  Every successful calculator result satisfies the
record invariant: a present next_change comes with a present deadline
whose ordinal is exactly next_change + 90 days, and a present days_left
is non-negative. -/
theorem c5_deadline_invariant :
    ∀ (birth today : Date) (r : RenewalResult),
      today.Valid →
      compute_next_change birth today = .ok r →
      ((∀ nc, r.next_change = some nc → ∃ dl, r.deadline = some dl ∧
          (dl.toOrdinal : Int) = (nc.toOrdinal : Int) + 90) ∧
       (∀ k, r.days_left = some k → 0 ≤ k)) := by
  intro birth today r htoday hr
  unfold compute_next_change at hr
  rcases h20 : safe_add_years birth 20 with e | d20
  · simp only [h20] at hr
    exact Except.noConfusion hr
  · simp only [h20] at hr
    rcases h45 : safe_add_years birth 45 with e | d45
    · simp only [h45] at hr
      exact Except.noConfusion hr
    · simp only [h45] at hr
      have hmain : ∀ sl nc0, nc0.Valid → status_block sl nc0 today = .ok r →
          ((∀ nc, r.next_change = some nc → ∃ dl, r.deadline = some dl ∧
              (dl.toOrdinal : Int) = (nc.toOrdinal : Int) + 90) ∧
           (∀ k, r.days_left = some k → 0 ≤ k)) := by
        intro sl nc0 hncv hsb
        obtain ⟨-, hnc0, dl0, hu, hdl0, hc1, hc2, hc3⟩ := status_block_fields hsb
        obtain ⟨hdlv, hdlord⟩ := date_add_days_ok hu
        constructor
        · intro nc hncEq
          rw [hnc0] at hncEq
          injection hncEq with hncEq
          subst hncEq
          exact ⟨dl0, hdl0, hdlord⟩
        · intro k hk
          by_cases hA : dl0 < today
          · rw [(hc1 hA).2] at hk
            cases hk
          · by_cases hB : nc0 ≤ today
            · rw [(hc2 hA hB).2] at hk
              injection hk with hk
              subst hk
              have hle : today ≤ dl0 := date_le_of_not_lt hA
              have := toOrdinal_le_of_le htoday hdlv hle
              unfold dateDiffDays
              omega
            · rw [(hc3 hA hB).2] at hk
              injection hk with hk
              subst hk
              have hlt : today < nc0 := date_lt_of_not_le hB
              have := toOrdinal_lt_of_lt htoday hncv hlt
              unfold dateDiffDays
              omega
      split_ifs at hr with hA hB
      · exact hmain _ _ (safe_add_years_ok h20).1 hr
      · exact hmain _ _ (safe_add_years_ok h45).1 hr
      · injection hr with hr
        subst hr
        refine ⟨?_, ?_⟩
        · intro nc h
          cases h
        · intro k h
          cases h

/-- Witness for c5_deadline_invariant at birth 1990-01-01,
today 2000-06-15. -/
theorem c5_deadline_invariant_witness :
    Date.Valid ⟨2000, 6, 15⟩ ∧
    ((⟨2010, 4, 1⟩ : Date).toOrdinal : Int) =
      ((⟨2010, 1, 1⟩ : Date).toOrdinal : Int) + 90 ∧
    (0 : Int) ≤ 3487 := by
  have h := c5_deadline_invariant ⟨1990, 1, 1⟩ ⟨2000, 6, 15⟩
    ⟨.firstChange20, some ⟨2010, 1, 1⟩, some ⟨2010, 4, 1⟩, StatusKind.ok,
      some 3487⟩ (by decide) (by decide)
  obtain ⟨dl, hdl, hord⟩ := h.1 ⟨2010, 1, 1⟩ rfl
  have hdl2 : dl = ⟨2010, 4, 1⟩ := by
    injection hdl with h2
    exact h2.symm
  subst hdl2
  exact ⟨by decide, hord, h.2 3487 rfl⟩

/-- C6, counterexample.  The claim quantifies over every input, but for a
birth year above 9985 the check at app.py line 101 calls
safe_add_years(birth, 14), whose target year exceeds 9999, so the
validator raises ValueError instead of returning the error list. -/
theorem c6_validator_counterexample :
    validate_inputs ⟨2025, 6, 1⟩ ⟨9990, 1, 1⟩ ⟨9990, 6, 1⟩ ⟨9995, 1, 1⟩ =
      .error PyError.valueError := by
  decide

/-- C6, amended.  Whenever safe_add_years(birth, 14) succeeds (birth.year
+ 14 <= 9999), the validator runs all seven checks unconditionally and
returns exactly the messages whose conditions hold, in the fixed source
order; a message is in the list iff its condition holds, and in
particular the issue-before-birth message is present iff issue < birth. -/
theorem c6_validator_messages :
    ∀ (sysToday birth issue today d14 : Date),
      safe_add_years birth 14 = .ok d14 →
      (validate_inputs sysToday birth issue today =
        .ok (VErrOrder.filter (vErrHolds sysToday birth issue today d14)) ∧
       (∀ e, e ∈ VErrOrder.filter (vErrHolds sysToday birth issue today d14) ↔
         vErrHolds sysToday birth issue today d14 e = true) ∧
       (VErr.issueBeforeBirth ∈
          VErrOrder.filter (vErrHolds sysToday birth issue today d14) ↔
         issue < birth)) := by
  intro s b i t d14 h14
  refine ⟨?_, ?_, ?_⟩
  · unfold validate_inputs
    simp only [h14]
    simp only [VErrOrder, vErrHolds, List.filter_cons, List.filter_nil,
      Bool.not_eq_true', decide_eq_true_eq, decide_eq_false_iff_not,
      ite_singleton_append, ite_cons_append, List.nil_append,
      List.cons_append, List.append_nil]
  · intro e
    rw [List.mem_filter]
    constructor
    · rintro ⟨-, h⟩
      exact h
    · intro h
      refine ⟨?_, h⟩
      cases e <;> decide
  · rw [List.mem_filter]
    constructor
    · rintro ⟨-, h⟩
      simpa [vErrHolds] using h
    · intro h
      exact ⟨by decide, by simpa [vErrHolds] using h⟩

/-- Witness for c6_validator_messages: issue 1999-01-01 precedes birth
2000-01-01, so the validator reports issue-before-birth and
issue-before-14th-birthday. -/
theorem c6_validator_messages_witness :
    safe_add_years ⟨2000, 1, 1⟩ 14 = .ok ⟨2014, 1, 1⟩ ∧
    validate_inputs ⟨2025, 6, 1⟩ ⟨2000, 1, 1⟩ ⟨1999, 1, 1⟩ ⟨2025, 6, 1⟩ =
      .ok (VErrOrder.filter
        (vErrHolds ⟨2025, 6, 1⟩ ⟨2000, 1, 1⟩ ⟨1999, 1, 1⟩ ⟨2025, 6, 1⟩
          ⟨2014, 1, 1⟩)) :=
  ⟨by decide, (c6_validator_messages ⟨2025, 6, 1⟩ ⟨2000, 1, 1⟩ ⟨1999, 1, 1⟩
    ⟨2025, 6, 1⟩ ⟨2014, 1, 1⟩ (by decide)).1⟩

/-- C7, counterexample.  The claim quantifies over every date and every
integer, but when the target year leaves [1, 9999] the except branch of
safe_add_years raises ValueError itself, so no date is returned:
safe_add_years(9999-01-01, 1) raises. -/
theorem c7_add_years_counterexample :
    safe_add_years ⟨9999, 1, 1⟩ 1 = .error PyError.valueError := by
  decide

/-- C7, amended.  For every valid date and integer whose target year
stays in [1, 9999], safe_add_years returns the date with year + years and
the same month and day, except that Feb 29 maps to Feb 28 when the target
year is not leap; the four example evaluations of the claim all hold. -/
theorem c7_add_years_spec :
    (∀ (d : Date) (n : Int), d.Valid → 1 ≤ (d.year : Int) + n →
      (d.year : Int) + n ≤ 9999 →
      safe_add_years d n =
        .ok (if d.month = 2 ∧ d.day = 29 ∧
              isLeap ((d.year : Int) + n).toNat = false
          then ⟨((d.year : Int) + n).toNat, 2, 28⟩
          else ⟨((d.year : Int) + n).toNat, d.month, d.day⟩)) ∧
    safe_add_years ⟨1996, 2, 29⟩ 4 = .ok ⟨2000, 2, 29⟩ ∧
    safe_add_years ⟨1999, 2, 28⟩ 1 = .ok ⟨2000, 2, 28⟩ ∧
    safe_add_years ⟨2001, 2, 28⟩ 3 = .ok ⟨2004, 2, 28⟩ ∧
    safe_add_years ⟨2000, 2, 29⟩ 1 = .ok ⟨2001, 2, 28⟩ :=
  ⟨fun d n hd h1 h2 => safe_add_years_inrange d n hd h1 h2,
    by decide, by decide, by decide, by decide⟩

/-- Witness for c7_add_years_spec: adding 50 years to 1996-02-29 clamps
to 2046-02-28. -/
theorem c7_add_years_spec_witness :
    Date.Valid ⟨1996, 2, 29⟩ ∧
    safe_add_years ⟨1996, 2, 29⟩ 50 = .ok ⟨2046, 2, 28⟩ := by
  refine ⟨by decide, ?_⟩
  have h := c7_add_years_spec.1 ⟨1996, 2, 29⟩ 50 (by decide) (by decide)
    (by decide)
  exact h.trans (by decide)

/-- C8, counterexample.  The claim states totality for every date and
integer, but safe_add_years(0001-01-01, -1) raises ValueError: the
try-branch fails on the out-of-range year and the except branch re-raises
for the same reason. -/
theorem c8_total_counterexample :
    safe_add_years ⟨1, 1, 1⟩ (-1) = .error PyError.valueError := by
  decide

/-- C8, amended.  safe_add_years raises no exception whenever the target
year d.year + years stays in [1, 9999]: on that domain the Feb-29
ValueError of the try branch is fully absorbed and a date is always
returned. -/
theorem c8_no_exception_in_range :
    ∀ (d : Date) (n : Int), d.Valid → 1 ≤ (d.year : Int) + n →
      (d.year : Int) + n ≤ 9999 →
      ∃ r, safe_add_years d n = .ok r := by
  intro d n hd h1 h2
  exact ⟨_, safe_add_years_inrange d n hd h1 h2⟩

/-- Witness for c8_no_exception_in_range at 2000-02-29 plus one year. -/
theorem c8_no_exception_in_range_witness :
    Date.Valid ⟨2000, 2, 29⟩ ∧
    safe_add_years ⟨2000, 2, 29⟩ 1 ≠ .error PyError.valueError ∧
    safe_add_years ⟨2000, 2, 29⟩ 1 ≠ .error PyError.overflowError := by
  obtain ⟨r, hr⟩ := c8_no_exception_in_range ⟨2000, 2, 29⟩ 1 (by decide)
    (by decide) (by decide)
  rw [hr]
  exact ⟨by decide, fun h => Except.noConfusion h, fun h => Except.noConfusion h⟩

/-- C9, confirmed.  The result record the UI displays is computed by
compute_next_change(birth, today); the issue date is not an argument of
the call, so two runs differing only in the issue date return identical
results (and in particular the classifier stage cannot influence them). -/
theorem c9_issue_independence :
    ∀ birth issue1 issue2 today : Date,
      ui_compute_result birth issue1 today =
        ui_compute_result birth issue2 today :=
  fun _ _ _ _ => rfl

/-- C10, confirmed.  safe_add_years is strictly monotone in the years
argument (within the representable year range), and consequently the
thresholds d14, d20, d45 of any birth date are strictly increasing. -/
theorem c10_add_years_monotone :
    (∀ (d : Date) (a b : Int) (ra rb : Date), d.Valid →
      1 ≤ (d.year : Int) + a → (d.year : Int) + b ≤ 9999 → a < b →
      safe_add_years d a = .ok ra → safe_add_years d b = .ok rb →
      ra < rb) ∧
    (∀ (birth d14 d20 d45 : Date),
      safe_add_years birth 14 = .ok d14 →
      safe_add_years birth 20 = .ok d20 →
      safe_add_years birth 45 = .ok d45 →
      d14 < d20 ∧ d20 < d45) := by
  constructor
  · intro d a b ra rb hd h1 h2 hab hra hrb
    have ha := safe_add_years_ok hra
    have hb := safe_add_years_ok hrb
    show Date.lt ra rb
    exact Or.inl (by omega)
  · intro birth d14 d20 d45 h14 h20 h45
    have ha := safe_add_years_ok h14
    have hb := safe_add_years_ok h20
    have hc := safe_add_years_ok h45
    constructor
    · show Date.lt d14 d20
      exact Or.inl (by omega)
    · show Date.lt d20 d45
      exact Or.inl (by omega)

/-- Witness for c10_add_years_monotone: the thresholds of birth
1990-01-01. -/
theorem c10_add_years_monotone_witness :
    safe_add_years ⟨1990, 1, 1⟩ 14 = .ok ⟨2004, 1, 1⟩ ∧
    ((⟨2004, 1, 1⟩ : Date) < ⟨2010, 1, 1⟩ ∧
      (⟨2010, 1, 1⟩ : Date) < ⟨2035, 1, 1⟩) :=
  ⟨by decide, c10_add_years_monotone.2 ⟨1990, 1, 1⟩ ⟨2004, 1, 1⟩
    ⟨2010, 1, 1⟩ ⟨2035, 1, 1⟩ (by decide) (by decide) (by decide)⟩
